import Mathlib

/-!
Verification of the multi-party debate orchestration engine.

The Python sources are embedded shallowly:
* `tts_module.py` — text cleaning and the guard of `TTSModule.text_to_speech`
  (texts are modelled as `List Char`, matching Python's sequence-of-code-points view);
* `debates.py` — the playback selection loop of `generate_response` and the
  round recomputation of `background_generation_worker`;
* `graph.py` — the round-robin agent nodes, `_generate_agent_response`,
  `get_rag_context_for_agent` and `create_multi_agent_graph`;
* `rag_module.py` — the ttl-based agent cache (`RAGCache`) and the cache
  consultation logic of `DynamicRAGModule.get_rag_context_for_agent`.

External collaborators (the DeepSeek model, the Kimi search API, the
SiliconCloud speech API, wall-clock time) are passed in as explicit oracle
parameters; everything else is translated directly from the source.
-/

namespace AiDebate

/-! ## tts_module.py -/

/-- Python `str.strip()` whitespace set: space, \t, \n, \r, \x0b, \x0c. -/
def pyIsSpace (c : Char) : Bool :=
  c == ' ' || c == '\t' || c == '\n' || c == '\r' ||
  c == Char.ofNat 0x0B || c == Char.ofNat 0x0C

/-- Python `str.strip()`: drop leading and trailing whitespace. -/
def pyStrip (s : List Char) : List Char :=
  ((s.dropWhile pyIsSpace).reverse.dropWhile pyIsSpace).reverse

/-- `text.split(":", 1)[1]`: everything after the first ASCII colon
(only used when the text contains a colon). -/
def dropThroughFirstColon : List Char → List Char
  | [] => []
  | c :: rest => if c == ':' then rest else dropThroughFirstColon rest

/-- `TTSModule._clean_text` (tts_module.py lines 176-193): remove the role-name
prefix up to the first `:`, strip, truncate to 1000 characters, strip again.
(The `try/except` wrapper is dead code here: none of the operations can raise.) -/
def clean_text (text : List Char) : List Char :=
  let text1 := if text.contains ':' then pyStrip (dropThroughFirstColon text) else text
  let text2 := if 1000 < text1.length then text1.take 1000 else text1
  pyStrip text2

/-- `TTSModule.text_to_speech` (tts_module.py lines 81-158), up to the external
HTTP call: returns `none` exactly when the function returns `None` without
contacting the API (missing key, or empty/whitespace-only text), and
`some payload` with the `input` field of the request body otherwise.  What the
network answers after that point is outside the model. -/
def text_to_speech (hasApiKey : Bool) (text : List Char) : Option (List Char) :=
  if !hasApiKey then none
  else if text.isEmpty || (pyStrip text).isEmpty then none
  else some (clean_text text)

lemma length_dropWhile_le (p : Char → Bool) (l : List Char) :
    (l.dropWhile p).length ≤ l.length := by
  induction l with
  | nil => simp [List.dropWhile]
  | cons c rest ih =>
    by_cases h : p c
    · simp only [List.dropWhile, h]
      exact Nat.le_trans ih (Nat.le_succ _)
    · simp [List.dropWhile, h]

lemma length_pyStrip_le (s : List Char) : (pyStrip s).length ≤ s.length := by
  unfold pyStrip
  calc ((s.dropWhile pyIsSpace).reverse.dropWhile pyIsSpace).reverse.length
      = ((s.dropWhile pyIsSpace).reverse.dropWhile pyIsSpace).length := by
        simp
    _ ≤ (s.dropWhile pyIsSpace).reverse.length := length_dropWhile_le _ _
    _ = (s.dropWhile pyIsSpace).length := by simp
    _ ≤ s.length := length_dropWhile_le _ _

/-- `pyStrip s` sits inside `s`: some prefix and some suffix were removed. -/
lemma pyStrip_between (s : List Char) : ∃ u v, s = u ++ pyStrip s ++ v := by
  refine ⟨s.takeWhile pyIsSpace,
    ((s.dropWhile pyIsSpace).reverse.takeWhile pyIsSpace).reverse, ?_⟩
  have h1 : s.dropWhile pyIsSpace =
      pyStrip s ++ ((s.dropWhile pyIsSpace).reverse.takeWhile pyIsSpace).reverse := by
    unfold pyStrip
    conv_lhs => rw [← List.reverse_reverse (s.dropWhile pyIsSpace)]
    rw [← List.reverse_append, List.takeWhile_append_dropWhile]
  calc s = s.takeWhile pyIsSpace ++ s.dropWhile pyIsSpace :=
        (List.takeWhile_append_dropWhile ..).symm
    _ = _ := by rw [List.append_assoc]; exact congrArg _ h1

/-! ## debates.py — delivery queue and playback loop -/

/-- `MessageItem` (debates.py lines 23-32); the audio fields are irrelevant to
ordering and omitted (they are opaque payloads produced by the TTS collaborator). -/
structure MessageItem where
  agent_key : String
  message : String
  round_num : Nat
  generation_order : Nat

def defaultItem : MessageItem := ⟨"", "", 0, 0⟩

/-- Stable insertion of one element into a list sorted by `generation_order`. -/
def insertByOrder (m : MessageItem) : List MessageItem → List MessageItem
  | [] => [m]
  | x :: xs =>
    if m.generation_order < x.generation_order then m :: x :: xs
    else x :: insertByOrder m xs

/-- `temp_messages.sort(key=lambda x: x.generation_order)` (debates.py line 549):
a stable sort by `generation_order`. -/
def sortByGenerationOrder : List MessageItem → List MessageItem
  | [] => []
  | x :: xs => insertByOrder x (sortByGenerationOrder xs)

/-- The playback side of `generate_response`'s main loop: session displayed
list plus the manager's queue (debates.py lines 533-575). -/
structure ConsumerState where
  queue : List MessageItem
  displayed : List MessageItem

/-- One pass of the playback selection body (debates.py lines 533-575): when
fewer messages are displayed than queued, drain the queue, sort by
`generation_order`, put everything back, and display the message whose
`generation_order` equals `len(displayed_messages) + 1` if it is present.
(The displayed item is not removed from the queue; the source only re-puts.) -/
def playbackStep (s : ConsumerState) : ConsumerState :=
  if s.displayed.length < s.queue.length then
    let temp := sortByGenerationOrder s.queue
    let nextPlayOrder := s.displayed.length + 1
    match temp.find? (fun m => m.generation_order == nextPlayOrder) with
    | some m => { queue := temp, displayed := s.displayed ++ [m] }
    | none => { queue := temp, displayed := s.displayed }
  else s

/-- Interleaving of the two threads: the producer enqueues
(`debate_manager.message_queue.put`, debates.py line 166) and the consumer
runs iterations of the playback body, in an arbitrary order. -/
inductive ConsumerOp
  | enqueue (m : MessageItem)
  | consume

def consumerRun : List ConsumerOp → ConsumerState → ConsumerState
  | [], s => s
  | ConsumerOp.enqueue m :: ops, s => consumerRun ops { s with queue := s.queue ++ [m] }
  | ConsumerOp.consume :: ops, s => consumerRun ops (playbackStep s)

/-- Invariant: position `i` of the displayed list carries generation order `i+1`. -/
def displayedConsecutive (l : List MessageItem) : Prop :=
  ∀ i, i < l.length → (l.getD i defaultItem).generation_order = i + 1

lemma getD_append_left {α : Type} (l l' : List α) (n : Nat) (d : α)
    (h : n < l.length) : (l ++ l').getD n d = l.getD n d := by
  induction l generalizing n with
  | nil => simp at h
  | cons a as ih =>
    cases n with
    | zero => rfl
    | succ k =>
      simp only [List.cons_append, List.getD_cons_succ]
      exact ih k (by simpa using h)

lemma getD_append_right {α : Type} (l l' : List α) (n : Nat) (d : α)
    (h : l.length ≤ n) : (l ++ l').getD n d = l'.getD (n - l.length) d := by
  induction l generalizing n with
  | nil => simp
  | cons a as ih =>
    cases n with
    | zero => simp at h
    | succ k =>
      simp only [List.cons_append, List.getD_cons_succ, List.length_cons]
      rw [ih k (by simpa using h)]
      congr 1
      omega

lemma playbackStep_preserves (s : ConsumerState)
    (h : displayedConsecutive s.displayed) :
    displayedConsecutive (playbackStep s).displayed := by
  unfold playbackStep
  by_cases hlt : s.displayed.length < s.queue.length
  · simp only [if_pos hlt]
    set temp := sortByGenerationOrder s.queue
    rcases hfind : temp.find? (fun m => m.generation_order == s.displayed.length + 1) with
        _ | m
    · simpa [hfind] using h
    · have hm : m.generation_order = s.displayed.length + 1 := by
        have := List.find?_some hfind
        simpa using this
      simp only [hfind]
      intro i hi
      simp only [List.length_append, List.length_cons, List.length_nil] at hi
      by_cases hcase : i < s.displayed.length
      · rw [getD_append_left _ _ _ _ hcase]
        exact h i hcase
      · have hie : i = s.displayed.length := by omega
        rw [getD_append_right _ _ _ _ (by omega)]
        subst hie
        simpa using hm
  · simpa [if_neg hlt] using h

lemma consumerRun_preserves (ops : List ConsumerOp) (s : ConsumerState)
    (h : displayedConsecutive s.displayed) :
    displayedConsecutive (consumerRun ops s).displayed := by
  induction ops generalizing s with
  | nil => simpa [consumerRun] using h
  | cons op rest ih =>
    cases op with
    | enqueue m => exact ih _ h
    | consume => exact ih _ (playbackStep_preserves s h)

/-! ## graph.py — roles, retrieval context, agent nodes, round-robin run -/

/-- The six entries of `AVAILABLE_ROLES` (graph.py lines 79-151): key and
display name (the other persona fields only feed the prompt text). -/
def AVAILABLE_ROLES : List (String × String) :=
  [("environmentalist", "环保主义者"),
   ("economist", "经济学家"),
   ("policy_maker", "政策制定者"),
   ("tech_expert", "技术专家"),
   ("sociologist", "社会学家"),
   ("ethicist", "伦理学家")]

/-- `AVAILABLE_ROLES[agent_key]["name"]`.  Graph construction validates every
key (graph.py lines 657-659), so the default branch is unreachable in a run. -/
def roleName (agentKey : String) : String :=
  ((AVAILABLE_ROLES.find? (fun p => p.1 == agentKey)).map Prod.snd).getD agentKey

/-- Python `str.strip()` on a `String`, via the code-point list (the kernel
can evaluate this, unlike `String.trim`; the whitespace set matches Python). -/
def pyStripString (s : String) : String := String.mk (pyStrip s.data)

/-- Python `s.startswith(t)` on code points. -/
def pyStartsWith (s t : String) : Bool := t.data.isPrefixOf s.data

def NO_MATERIAL : String := "暂无相关学术资料。"
def RAG_DISABLED_MSG : String := "当前未启用学术资料检索功能。"
def RAG_FALLBACK : String := "暂未找到直接相关的最新学术研究，请基于你的专业知识发表观点。"
def RAG_ERROR_FALLBACK : String := "学术资料检索遇到技术问题，请基于你的专业知识发表观点。"

/-- Outcome of one call to the external retrieval pipeline
(`rag_module.get_rag_context_for_agent`, invoked with `force_refresh=True`
from graph.py line 390): either a context string or a raised exception. -/
inductive FetchOutcome
  | ok (ctx : String)
  | raise (e : String)

/-- Outcome of one generation: the model answered, the module-level `deepseek`
was `None`, or the chain raised (timeout / provider error), which
`_generate_agent_response` catches at graph.py line 532. -/
inductive GenOutcome
  | success (response : String)
  | modelNone
  | err (msg : String)

/-- The per-session state channels of `MultiAgentDebateState` that the
scheduling and caching logic reads and writes, plus the stream of produced
turns.  `transcript` records, per produced message, the data the consumer
worker observes (debates.py lines 90-169): arrival index = generation order,
speaking agent, round computed by the node, content, and — for the cache
analysis — the retrieval context handed to the agent and whether the external
retrieval pipeline was invoked for this turn. -/
structure Turn where
  generationOrder : Nat
  agentKey : String
  roundNumber : Nat
  content : String
  ragContext : Option String
  fetched : Bool

def defaultTurn : Turn := ⟨0, "", 0, "", none, false⟩

structure GraphState where
  totalMessages : Nat
  currentAgentIndex : Nat
  currentRound : Nat
  agentPaperCache : List (String × String)
  firstRoundRagCompleted : List String
  transcript : List Turn

/-- Initial state as both drivers build it (debates.py lines 464-480,
graph.py lines 703-722): in particular `current_round` starts at `0`. -/
def initialGraphState : GraphState :=
  { totalMessages := 0, currentAgentIndex := 0, currentRound := 0,
    agentPaperCache := [], firstRoundRagCompleted := [], transcript := [] }

structure RagCallResult where
  context : String
  cache : List (String × String)
  completed : List String
  fetched : Bool

/-- `get_rag_context_for_agent` (graph.py lines 362-424).  Note that it reads
the *stored* `state["current_round"]` field (line 380), not the round of the
turn being generated.  `fetch` is what the external retrieval pipeline would
deliver if invoked; `fetched` records whether it was invoked. -/
def get_rag_context_for_agent (ragEnabled : Bool) (agentKey : String)
    (st : GraphState) (fetch : FetchOutcome) : RagCallResult :=
  if !ragEnabled then
    ⟨RAG_DISABLED_MSG, st.agentPaperCache, st.firstRoundRagCompleted, false⟩
  else if st.currentRound = 1 ∧ ¬ st.firstRoundRagCompleted.contains agentKey then
    match fetch with
    | FetchOutcome.ok ctx =>
      if ctx ≠ "" ∧ pyStripString ctx ≠ NO_MATERIAL then
        ⟨ctx, (agentKey, ctx) :: st.agentPaperCache,
          st.firstRoundRagCompleted ++ [agentKey], true⟩
      else
        ⟨RAG_FALLBACK, st.agentPaperCache, st.firstRoundRagCompleted, true⟩
    | FetchOutcome.raise _ =>
      ⟨RAG_ERROR_FALLBACK, st.agentPaperCache, st.firstRoundRagCompleted, true⟩
  else if (st.agentPaperCache.find? (fun p => p.1 == agentKey)).isSome then
    ⟨(((st.agentPaperCache.find? (fun p => p.1 == agentKey)).map Prod.snd).getD ""),
      st.agentPaperCache, st.firstRoundRagCompleted, false⟩
  else
    ⟨RAG_FALLBACK, st.agentPaperCache, st.firstRoundRagCompleted, false⟩

/-- The update dictionary returned by `_generate_agent_response`; the
`current_round` key is present only on the success path (graph.py lines
440-444, 505-510, 535-539). -/
structure StateUpdate where
  messages : List String
  total_messages : Nat
  current_agent_index : Nat
  current_round : Option Nat

structure GenResult where
  update : StateUpdate
  ragContext : Option String
  cache : List (String × String)
  completed : List String
  fetched : Bool

def modelNotInitMsg (name : String) : String :=
  name ++ ": 抱歉，AI模型未正确初始化。"

def genErrorMsg (name e : String) : String :=
  name ++ ": 抱歉，我现在无法发言。技术问题：" ++ e

/-- `_generate_agent_response` (graph.py lines 427-539).  On the exception
path the retrieval call has already completed (line 470 precedes the model
invocation at line 473) and its in-place mutations of the state's cache
objects persist, so `cache`/`completed` carry the post-retrieval values on
both the success and the exception path. -/
def _generate_agent_response (ragEnabled : Bool) (agents : List String)
    (st : GraphState) (agentKey : String) (outcome : GenOutcome)
    (fetch : FetchOutcome) : GenResult :=
  let name := roleName agentKey
  match outcome with
  | GenOutcome.modelNone =>
    { update := { messages := [modelNotInitMsg name],
                  total_messages := st.totalMessages + 1,
                  current_agent_index := st.currentAgentIndex + 1,
                  current_round := none },
      ragContext := none, cache := st.agentPaperCache,
      completed := st.firstRoundRagCompleted, fetched := false }
  | GenOutcome.err e =>
    let r := get_rag_context_for_agent ragEnabled agentKey st fetch
    { update := { messages := [genErrorMsg name e],
                  total_messages := st.totalMessages + 1,
                  current_agent_index := st.currentAgentIndex + 1,
                  current_round := none },
      ragContext := some r.context, cache := r.cache,
      completed := r.completed, fetched := r.fetched }
  | GenOutcome.success resp =>
    let total := st.totalMessages
    let pc := agents.length
    let r := get_rag_context_for_agent ragEnabled agentKey st fetch
    let resp1 := pyStripString resp
    let content := if pyStartsWith resp1 name then resp1 else name ++ ": " ++ resp1
    { update := { messages := [content],
                  total_messages := total + 1,
                  current_agent_index := st.currentAgentIndex + 1,
                  current_round := some ((total + 1) / pc + 1) },
      ragContext := some r.context, cache := r.cache,
      completed := r.completed, fetched := r.fetched }

inductive Goto
  | node (key : String)
  | END

/-- Commit the node's `Command(update=...)` into the session state and append
the produced message to the stream, the way `background_generation_worker`
observes it (arrival index = `message_count`).  `computedRound` is the
`current_round` the node computed at graph.py line 569 before generating. -/
def applyUpdate (st : GraphState) (r : GenResult) (agentKey : String)
    (computedRound : Nat) : GraphState :=
  { totalMessages := r.update.total_messages,
    currentAgentIndex := r.update.current_agent_index,
    currentRound := r.update.current_round.getD st.currentRound,
    agentPaperCache := r.cache,
    firstRoundRagCompleted := r.completed,
    transcript := st.transcript ++
      [{ generationOrder := r.update.total_messages,
         agentKey := agentKey,
         roundNumber := computedRound,
         content := r.update.messages.headD "",
         ragContext := r.ragContext,
         fetched := r.fetched }] }

/-- One agent node built by `create_agent_node_function` (graph.py lines
542-636).  The two `except` fallbacks at lines 616-634 are unreachable:
`_generate_agent_response` catches every exception internally and graph
construction guarantees the agent key is known, so they are not modelled. -/
def agent_node (ragEnabled : Bool) (agents : List String) (maxRounds : Nat)
    (agentKey : String) (st : GraphState) (outcome : GenOutcome)
    (fetch : FetchOutcome) : GraphState × Goto :=
  let total := st.totalMessages
  if agents.length = 0 then (st, Goto.END)
  else if maxRounds * agents.length ≤ total then (st, Goto.END)
  else
    let currentRound := total / agents.length + 1
    let expected := agents.getD (total % agents.length) ""
    if agentKey ≠ expected then (st, Goto.node expected)
    else
      let r := _generate_agent_response ragEnabled agents st agentKey outcome fetch
      let st1 := applyUpdate st r agentKey currentRound
      let newTotal := r.update.total_messages
      if maxRounds * agents.length ≤ newTotal then (st1, Goto.END)
      else (st1, Goto.node (agents.getD (newTotal % agents.length) ""))

/-- Driving the compiled graph: follow `goto` edges starting from
`START → active_agents[0]` (graph.py lines 670-671) until `END`.  `outcomes`
and `fetches` are indexed by the number of messages already produced. -/
def runGraph (ragEnabled : Bool) (agents : List String) (maxRounds : Nat)
    (outcomes : Nat → GenOutcome) (fetches : Nat → FetchOutcome) :
    Nat → Goto → GraphState → GraphState
  | 0, _, st => st
  | _ + 1, Goto.END, st => st
  | fuel + 1, Goto.node key, st =>
    let r := agent_node ragEnabled agents maxRounds key st
      (outcomes st.totalMessages) (fetches st.totalMessages)
    runGraph ragEnabled agents maxRounds outcomes fetches fuel r.2 r.1

/-- A whole session: the graph run as `background_generation_worker` streams
it (debates.py lines 82-178). -/
def runDebate (ragEnabled : Bool) (agents : List String) (maxRounds : Nat)
    (outcomes : Nat → GenOutcome) (fetches : Nat → FetchOutcome) : GraphState :=
  runGraph ragEnabled agents maxRounds outcomes fetches
    (maxRounds * agents.length + 1) (Goto.node (agents.getD 0 "")) initialGraphState

/-- `((message_count - 1) // len(selected_agents)) + 1`: the round the
consumer-side worker recomputes for the `message_count`-th message
(debates.py line 136). -/
def background_worker_round (messageCount pc : Nat) : Nat :=
  (messageCount - 1) / pc + 1

/-- The content that `_generate_agent_response` puts in the update's single
message, as a function of the speaking agent and of the generation outcome. -/
def contentOf (agentKey : String) (outcome : GenOutcome) : String :=
  match outcome with
  | GenOutcome.modelNone => modelNotInitMsg (roleName agentKey)
  | GenOutcome.err e => genErrorMsg (roleName agentKey) e
  | GenOutcome.success resp =>
    let r := pyStripString resp
    if pyStartsWith r (roleName agentKey) then r
    else roleName agentKey ++ ": " ++ r

lemma gen_update (re : Bool) (agents : List String) (st : GraphState)
    (key : String) (o : GenOutcome) (f : FetchOutcome) :
    (_generate_agent_response re agents st key o f).update.total_messages
        = st.totalMessages + 1 ∧
    (_generate_agent_response re agents st key o f).update.messages
        = [contentOf key o] := by
  cases o <;> exact ⟨rfl, rfl⟩

lemma runGraph_end (re : Bool) (agents : List String) (R : Nat)
    (outcomes : Nat → GenOutcome) (fetches : Nat → FetchOutcome) :
    ∀ fuel st, runGraph re agents R outcomes fetches fuel Goto.END st = st := by
  intro fuel st
  cases fuel <;> rfl

lemma agent_node_run (re : Bool) (agents : List String) (R : Nat)
    (st : GraphState) (o : GenOutcome) (f : FetchOutcome)
    (hP : agents.length ≠ 0) (hlt : st.totalMessages < R * agents.length) :
    agent_node re agents R (agents.getD (st.totalMessages % agents.length) "")
        st o f =
      (applyUpdate st
        (_generate_agent_response re agents st
          (agents.getD (st.totalMessages % agents.length) "") o f)
        (agents.getD (st.totalMessages % agents.length) "")
        (st.totalMessages / agents.length + 1),
       if R * agents.length ≤ st.totalMessages + 1 then Goto.END
       else Goto.node (agents.getD ((st.totalMessages + 1) % agents.length) "")) := by
  have htot := (gen_update re agents st
    (agents.getD (st.totalMessages % agents.length) "") o f).1
  simp only [agent_node]
  rw [if_neg hP, if_neg (not_le.mpr hlt),
    if_neg (show ¬ agents.getD (st.totalMessages % agents.length) ""
        ≠ agents.getD (st.totalMessages % agents.length) "" by simp)]
  rw [htot]
  split_ifs <;> rfl

/-- The fields of the `i`-th streamed turn that the round-robin logic fixes. -/
def turnAt (agents : List String) (outcomes : Nat → GenOutcome)
    (tr : List Turn) (i : Nat) : Prop :=
  (tr.getD i defaultTurn).generationOrder = i + 1 ∧
  (tr.getD i defaultTurn).agentKey = agents.getD (i % agents.length) "" ∧
  (tr.getD i defaultTurn).roundNumber = i / agents.length + 1 ∧
  (tr.getD i defaultTurn).content
    = contentOf (agents.getD (i % agents.length) "") (outcomes i)

theorem runGraph_trace (re : Bool) (agents : List String) (R : Nat)
    (outcomes : Nat → GenOutcome) (fetches : Nat → FetchOutcome)
    (hP : agents.length ≠ 0) :
    ∀ fuel st,
      st.totalMessages = st.transcript.length →
      st.totalMessages ≤ R * agents.length →
      R * agents.length - st.totalMessages < fuel →
      (runGraph re agents R outcomes fetches fuel
        (Goto.node (agents.getD (st.totalMessages % agents.length) "")) st).totalMessages
          = R * agents.length ∧
      (runGraph re agents R outcomes fetches fuel
        (Goto.node (agents.getD (st.totalMessages % agents.length) "")) st).transcript.length
          = R * agents.length ∧
      (∀ i, i < st.transcript.length →
        (runGraph re agents R outcomes fetches fuel
          (Goto.node (agents.getD (st.totalMessages % agents.length) "")) st).transcript.getD
            i defaultTurn = st.transcript.getD i defaultTurn) ∧
      (∀ i, st.transcript.length ≤ i → i < R * agents.length →
        turnAt agents outcomes
          (runGraph re agents R outcomes fetches fuel
            (Goto.node (agents.getD (st.totalMessages % agents.length) "")) st).transcript i) := by
  intro fuel
  induction fuel with
  | zero => intro st h1 h2 h3; omega
  | succ f ih =>
    intro st h1 h2 h3
    by_cases hterm : R * agents.length ≤ st.totalMessages
    · have htot : st.totalMessages = R * agents.length := le_antisymm h2 hterm
      have hnode : agent_node re agents R
          (agents.getD (st.totalMessages % agents.length) "") st
          (outcomes st.totalMessages) (fetches st.totalMessages) = (st, Goto.END) := by
        simp only [agent_node]
        rw [if_neg hP, if_pos hterm]
      have hrun : runGraph re agents R outcomes fetches (f + 1)
          (Goto.node (agents.getD (st.totalMessages % agents.length) "")) st = st := by
        simp only [runGraph, hnode]
        exact runGraph_end re agents R outcomes fetches f st
      rw [hrun]
      refine ⟨htot, h1 ▸ htot, fun i _ => rfl, fun i hi hi2 => ?_⟩
      omega
    · push_neg at hterm
      have hstep := agent_node_run re agents R st
        (outcomes st.totalMessages) (fetches st.totalMessages) hP hterm
      set key := agents.getD (st.totalMessages % agents.length) "" with hkey
      set r := _generate_agent_response re agents st key
        (outcomes st.totalMessages) (fetches st.totalMessages) with hr
      set st1 := applyUpdate st r key (st.totalMessages / agents.length + 1) with hst1
      have hup := gen_update re agents st key
        (outcomes st.totalMessages) (fetches st.totalMessages)
      rw [← hr] at hup
      have hst1total : st1.totalMessages = st.totalMessages + 1 := by
        rw [hst1]; simp [applyUpdate, hup.1]
      have hst1tr : st1.transcript = st.transcript ++
          [{ generationOrder := st.totalMessages + 1,
             agentKey := key,
             roundNumber := st.totalMessages / agents.length + 1,
             content := contentOf key (outcomes st.totalMessages),
             ragContext := r.ragContext, fetched := r.fetched }] := by
        rw [hst1]; simp [applyUpdate, hup.1, hup.2]
      have hst1len : st1.transcript.length = st.totalMessages + 1 := by
        rw [hst1tr]; simp [← h1]
      by_cases hdone : R * agents.length ≤ st.totalMessages + 1
      · have heq : st.totalMessages + 1 = R * agents.length := by omega
        have hrun : runGraph re agents R outcomes fetches (f + 1)
            (Goto.node key) st = st1 := by
          simp only [runGraph]
          rw [hstep]
          simp only [if_pos hdone]
          exact runGraph_end re agents R outcomes fetches f st1
        rw [hrun]
        refine ⟨by omega, by omega, fun i hi => ?_, fun i hi hi2 => ?_⟩
        · rw [hst1tr, getD_append_left _ _ _ _ hi]
        · have hie : i = st.totalMessages := by omega
          have hget : st1.transcript.getD i defaultTurn =
              { generationOrder := st.totalMessages + 1,
                agentKey := key,
                roundNumber := st.totalMessages / agents.length + 1,
                content := contentOf key (outcomes st.totalMessages),
                ragContext := r.ragContext, fetched := r.fetched } := by
            rw [hst1tr, getD_append_right _ _ _ _ (by omega)]
            have : i - st.transcript.length = 0 := by omega
            rw [this]
            rfl
          refine ⟨?_, ?_, ?_, ?_⟩ <;> rw [hget] <;> simp [hie, hkey]
      · have hrun : runGraph re agents R outcomes fetches (f + 1)
            (Goto.node key) st =
            runGraph re agents R outcomes fetches f
              (Goto.node (agents.getD ((st.totalMessages + 1) % agents.length) "")) st1 := by
          simp only [runGraph]
          rw [hstep]
          simp only [if_neg hdone]
        have HIH := ih st1 (by omega) (by omega) (by omega)
        rw [hst1total] at HIH
        rw [hrun]
        refine ⟨HIH.1, HIH.2.1, fun i hi => ?_, fun i hi hi2 => ?_⟩
        · rw [HIH.2.2.1 i (by omega), hst1tr, getD_append_left _ _ _ _ hi]
        · by_cases hcase : i < st1.transcript.length
          · have hie : i = st.totalMessages := by omega
            have hget : st1.transcript.getD i defaultTurn =
                { generationOrder := st.totalMessages + 1,
                  agentKey := key,
                  roundNumber := st.totalMessages / agents.length + 1,
                  content := contentOf key (outcomes st.totalMessages),
                  ragContext := r.ragContext, fetched := r.fetched } := by
              rw [hst1tr, getD_append_right _ _ _ _ (by omega)]
              have : i - st.transcript.length = 0 := by omega
              rw [this]
              rfl
            have hpres := HIH.2.2.1 i (by omega)
            refine ⟨?_, ?_, ?_, ?_⟩ <;> rw [hpres, hget] <;> simp [hie, hkey]
          · exact HIH.2.2.2 i (by omega) hi2

/-- Full characterisation of a session's produced stream. -/
theorem runDebate_spec (re : Bool) (agents : List String) (R : Nat)
    (outcomes : Nat → GenOutcome) (fetches : Nat → FetchOutcome)
    (hP : agents.length ≠ 0) :
    (runDebate re agents R outcomes fetches).totalMessages = R * agents.length ∧
    (runDebate re agents R outcomes fetches).transcript.length = R * agents.length ∧
    ∀ i, i < R * agents.length →
      turnAt agents outcomes (runDebate re agents R outcomes fetches).transcript i := by
  have h := runGraph_trace re agents R outcomes fetches hP
    (R * agents.length + 1) initialGraphState rfl
    (show initialGraphState.totalMessages ≤ R * agents.length from Nat.zero_le _)
    (Nat.lt_succ_of_le (Nat.sub_le _ _))
  have hzero : (0 : Nat) % agents.length = 0 := Nat.zero_mod _
  rw [show initialGraphState.totalMessages = 0 from rfl, hzero] at h
  unfold runDebate
  exact ⟨h.1, h.2.1, fun i hi => h.2.2.2 i (by simp [initialGraphState]) hi⟩

/-! ## rag_module.py — ttl-based per-(role, topic) agent cache -/

/-- `RAG_CONFIG["agent_cache_duration_hours"] = 6`, converted to seconds;
timestamps are modelled as seconds so `datetime.now() - cache_time >
timedelta(hours=6)` becomes `timestamp + ttl < now`. -/
def AGENT_CACHE_TTL_SECONDS : Nat := 6 * 3600

structure RmCacheEntry where
  timestamp : Nat
  context : String
deriving DecidableEq

/-- The on-disk agent cache of `RAGCache`: one entry per (agent_role,
debate_topic) key (the md5 file name is injective on the key in the model). -/
abbrev RmCache : Type := List ((String × String) × RmCacheEntry)

/-- `RAGCache.get_agent_cached_context` (rag_module.py lines 143-165): a hit
whose age exceeds the ttl removes the file (`os.remove`) and reports a miss.
Returns the result and the cache directory after the call. -/
def get_agent_cached_context (cache : RmCache) (role topic : String)
    (now : Nat) : Option String × RmCache :=
  match cache.find? (fun x => x.1 == (role, topic)) with
  | none => (none, cache)
  | some e =>
    if e.2.timestamp + AGENT_CACHE_TTL_SECONDS < now then
      (none, cache.filter (fun x => !(x.1 == (role, topic))))
    else (some e.2.context, cache)

/-- `RAGCache.cache_agent_context` (rag_module.py lines 167-186): write the
entry for the key, timestamped now. -/
def cache_agent_context (cache : RmCache) (role topic context : String)
    (now : Nat) : RmCache :=
  ((role, topic), ⟨now, context⟩) ::
    cache.filter (fun x => !(x.1 == (role, topic)))

def countOccsAux (pat : List Char) : Nat → List Char → Nat
  | 0, _ => 0
  | _ + 1, [] => 0
  | fuel + 1, c :: rest =>
    if pat.isPrefixOf (c :: rest) then
      1 + countOccsAux pat fuel (List.drop (pat.length - 1) rest)
    else countOccsAux pat fuel rest

/-- Python `s.count(pat)`: non-overlapping occurrences scanned left to right
(each match skips the full pattern; `s.count("") == len(s)+1`).  The fuel
`s.length` suffices because every step consumes at least one character. -/
def strCount (s pat : String) : Nat :=
  if pat.data.isEmpty then s.data.length + 1
  else countOccsAux pat.data s.data.length s.data

/-- What `DynamicRAGModule.search_academic_sources` plus the context-building
loop (rag_module.py lines 860-905) deliver: a raised exception, no results, or
a built context string.  The Kimi search and the formatting of verified
results into the context are external to the cache logic under analysis. -/
inductive SearchOutcome
  | raise (e : String)
  | results (builtContext : Option String)

/-- `DynamicRAGModule.get_rag_context_for_agent` (rag_module.py lines
797-914): guards, cache consultation (skipped under `force_refresh`), the
re-fetch when the cached reference count differs from `max_sources`, the
external fetch, and the cache write.  Returns (context, cache after the call,
whether the external search was invoked). -/
def rm_get_rag_context_for_agent (role topic : String) (maxSources : Nat)
    (forceRefresh : Bool) (cache : RmCache) (now : Nat)
    (search : SearchOutcome) : String × RmCache × Bool :=
  if role == "" || topic == "" then (NO_MATERIAL, cache, false)
  else if maxSources = 0 then (NO_MATERIAL, cache, false)
  else
    let g := get_agent_cached_context cache role topic now
    let hit : Option String :=
      if forceRefresh then none
      else
        match g.1 with
        | some c => if strCount c "参考资料" = maxSources then some c else none
        | none => none
    let cache1 := if forceRefresh then cache else g.2
    match hit with
    | some c => (c, cache1, false)
    | none =>
      match search with
      | SearchOutcome.raise _ => (RAG_ERROR_FALLBACK, cache1, true)
      | SearchOutcome.results none => (NO_MATERIAL, cache1, true)
      | SearchOutcome.results (some ctx) =>
        let cache2 :=
          if ctx ≠ "" ∧ ctx ≠ NO_MATERIAL then
            cache_agent_context cache1 role topic ctx now
          else cache1
        (ctx, cache2, true)

lemma find?_filter_not {α : Type} (p : α → Bool) (l : List α) :
    (l.filter (fun a => !p a)).find? p = none := by
  induction l with
  | nil => rfl
  | cons a as ih =>
    simp only [List.filter_cons]
    by_cases h : p a
    · simp [h, ih]
    · simp [h, List.find?_cons, ih]

/-! ## graph.py / debates.py — session construction and validation -/

/-- `create_multi_agent_graph` (graph.py lines 639-680): rejects fewer than 3
or more than 6 agents and unknown agent keys with `ValueError`, then builds
the graph over exactly the given agents. -/
def create_multi_agent_graph (activeAgents : List String) :
    Except String (List String) :=
  if activeAgents.length < 3 then Except.error "至少需要3个Agent参与辩论"
  else if 6 < activeAgents.length then Except.error "最多支持6个Agent参与辩论"
  else
    match activeAgents.find?
        (fun k => (AVAILABLE_ROLES.find? (fun p => p.1 == k)).isNone) with
    | some k => Except.error ("未知的Agent: " ++ k)
    | none => Except.ok activeAgents

/-- `generate_response` (debates.py lines 368-503) up to the point where the
generation thread is started: the role-count validation at lines 385-395 runs
before the graph is created and before any turn is generated; on success the
session produces the stream of `runDebate`.  (TTS initialisation, status
display and RAG preloading touch only external collaborators.) -/
def generate_response_session (agents : List String) (R : Nat)
    (ragEnabled : Bool) (outcomes : Nat → GenOutcome)
    (fetches : Nat → FetchOutcome) : Except String (List Turn) :=
  if agents.isEmpty then Except.error "没有选择任何角色"
  else if agents.length < 3 then Except.error "至少需要选择3个角色"
  else if 6 < agents.length then Except.error "最多支持6个角色"
  else
    match create_multi_agent_graph agents with
    | Except.error e => Except.error ("创建辩论图失败: " ++ e)
    | Except.ok ags => Except.ok (runDebate ragEnabled ags R outcomes fetches).transcript

/-! ## Claim theorems -/

/-- C1: for every session with P participants (3 ≤ P ≤ 6) and R rounds
(2 ≤ R ≤ 8), and for arbitrary per-turn generation and retrieval outcomes,
the generation worker produces exactly P*R turns, the highest assigned
generation order (and the message counter) equals R*P at termination, and
once that count is reached every agent node immediately transitions to `END`
without producing a further turn. -/
theorem claim1_exact_turn_count (re : Bool) (agents : List String) (R : Nat)
    (outcomes : Nat → GenOutcome) (fetches : Nat → FetchOutcome)
    (hP1 : 3 ≤ agents.length) (hP2 : agents.length ≤ 6)
    (hR1 : 2 ≤ R) (hR2 : R ≤ 8) :
    (runDebate re agents R outcomes fetches).transcript.length = R * agents.length ∧
    (runDebate re agents R outcomes fetches).totalMessages = R * agents.length ∧
    (∀ i, i < R * agents.length →
      (((runDebate re agents R outcomes fetches).transcript.getD i
        defaultTurn).generationOrder = i + 1)) ∧
    (∀ key o f,
      agent_node re agents R key (runDebate re agents R outcomes fetches) o f
        = (runDebate re agents R outcomes fetches, Goto.END)) := by
  have hP : agents.length ≠ 0 := by omega
  have h := runDebate_spec re agents R outcomes fetches hP
  refine ⟨h.2.1, h.1, fun i hi => (h.2.2 i hi).1, fun key o f => ?_⟩
  simp only [agent_node]
  rw [if_neg hP, if_pos (le_of_eq h.1.symm)]

/-- Witness for C1: a concrete 3-participant, 2-round session yields 6 turns. -/
theorem claim1_witness :
    (runDebate true ["environmentalist", "economist", "policy_maker"] 2
      (fun _ => GenOutcome.success "观点") (fun _ => FetchOutcome.ok "资料")).transcript.length
      = 2 * (["environmentalist", "economist", "policy_maker"] : List String).length :=
  (claim1_exact_turn_count true ["environmentalist", "economist", "policy_maker"] 2
    (fun _ => GenOutcome.success "观点") (fun _ => FetchOutcome.ok "资料")
    (by decide) (by decide) (by decide) (by decide)).1

/-- C2: for every session and every k with 1 ≤ k ≤ maxRounds*P, the turn with
generation order k is produced by `roles[(k-1) mod P]` — strict round robin. -/
theorem claim2_round_robin (re : Bool) (agents : List String) (R : Nat)
    (outcomes : Nat → GenOutcome) (fetches : Nat → FetchOutcome)
    (hP1 : 3 ≤ agents.length) (hP2 : agents.length ≤ 6)
    (k : Nat) (hk1 : 1 ≤ k) (hk2 : k ≤ R * agents.length) :
    (((runDebate re agents R outcomes fetches).transcript.getD (k - 1)
        defaultTurn).generationOrder = k) ∧
    (((runDebate re agents R outcomes fetches).transcript.getD (k - 1)
        defaultTurn).agentKey = agents.getD ((k - 1) % agents.length) "") := by
  have hP : agents.length ≠ 0 := by omega
  have h := runDebate_spec re agents R outcomes fetches hP
  have ht := h.2.2 (k - 1) (by omega)
  exact ⟨by rw [ht.1]; omega, ht.2.1⟩

/-- Witness for C2: in the concrete session, turn 4 is round 2's first turn
and is spoken by `roles[(4-1) mod 3] = roles[0]`. -/
theorem claim2_witness :
    (((runDebate true ["environmentalist", "economist", "policy_maker"] 2
        (fun _ => GenOutcome.success "观点") (fun _ => FetchOutcome.ok "资料")).transcript.getD
        (4 - 1) defaultTurn).generationOrder = 4) ∧
    (((runDebate true ["environmentalist", "economist", "policy_maker"] 2
        (fun _ => GenOutcome.success "观点") (fun _ => FetchOutcome.ok "资料")).transcript.getD
        (4 - 1) defaultTurn).agentKey
      = (["environmentalist", "economist", "policy_maker"] : List String).getD
          ((4 - 1) % (["environmentalist", "economist", "policy_maker"] : List String).length) "") :=
  claim2_round_robin true ["environmentalist", "economist", "policy_maker"] 2
    (fun _ => GenOutcome.success "观点") (fun _ => FetchOutcome.ok "资料")
    (by decide) (by decide) 4 (by decide) (by decide)

/-- C5: a per-turn generation failure (model not initialised, or an exception
from the generation pipeline) is substituted by a role-tagged error turn that
still receives the next generation order, the session still completes all
R*P turns, and — when more turns remain — the next turn belongs to the next
scheduled speaker.  No exception escapes: `_generate_agent_response` is total
and always returns an ordered update. -/
theorem claim5_failure_substituted (re : Bool) (agents : List String) (R : Nat)
    (outcomes : Nat → GenOutcome) (fetches : Nat → FetchOutcome)
    (hP1 : 3 ≤ agents.length) (hP2 : agents.length ≤ 6)
    (k : Nat) (hk1 : 1 ≤ k) (hk2 : k ≤ R * agents.length) (e : String)
    (hfail : outcomes (k - 1) = GenOutcome.err e ∨
             outcomes (k - 1) = GenOutcome.modelNone) :
    (runDebate re agents R outcomes fetches).transcript.length = R * agents.length ∧
    (((runDebate re agents R outcomes fetches).transcript.getD (k - 1)
        defaultTurn).generationOrder = k) ∧
    (((runDebate re agents R outcomes fetches).transcript.getD (k - 1)
        defaultTurn).content
      = contentOf (agents.getD ((k - 1) % agents.length) "") (outcomes (k - 1))) ∧
    (∃ rest, ((runDebate re agents R outcomes fetches).transcript.getD (k - 1)
        defaultTurn).content
      = roleName (agents.getD ((k - 1) % agents.length) "") ++ rest) ∧
    (k < R * agents.length →
      ((runDebate re agents R outcomes fetches).transcript.getD k
        defaultTurn).agentKey = agents.getD (k % agents.length) "") := by
  have hP : agents.length ≠ 0 := by omega
  have h := runDebate_spec re agents R outcomes fetches hP
  have ht := h.2.2 (k - 1) (by omega)
  refine ⟨h.2.1, by rw [ht.1]; omega, ht.2.2.2, ?_, fun hlt => (h.2.2 k hlt).2.1⟩
  rcases hfail with hf | hf
  · exact ⟨": 抱歉，我现在无法发言。技术问题：" ++ e, by
      rw [ht.2.2.2, hf]; simp [contentOf, genErrorMsg, String.append_assoc]⟩
  · exact ⟨": 抱歉，AI模型未正确初始化。", by
      rw [ht.2.2.2, hf]; simp [contentOf, modelNotInitMsg]⟩

/-- Witness for C5: with turn 3 failing on a timeout, the session still has 6
turns and turn 3 carries the role-tagged error message. -/
theorem claim5_witness :
    (runDebate true ["environmentalist", "economist", "policy_maker"] 2
      (fun j => if j = 2 then GenOutcome.err "连接超时" else GenOutcome.success "观点")
      (fun _ => FetchOutcome.ok "资料")).transcript.length
      = 2 * (["environmentalist", "economist", "policy_maker"] : List String).length ∧
    (((runDebate true ["environmentalist", "economist", "policy_maker"] 2
        (fun j => if j = 2 then GenOutcome.err "连接超时" else GenOutcome.success "观点")
        (fun _ => FetchOutcome.ok "资料")).transcript.getD (3 - 1)
        defaultTurn).generationOrder = 3) := by
  have h := claim5_failure_substituted true
    ["environmentalist", "economist", "policy_maker"] 2
    (fun j => if j = 2 then GenOutcome.err "连接超时" else GenOutcome.success "观点")
    (fun _ => FetchOutcome.ok "资料")
    (by decide) (by decide) 3 (by decide) (by decide) "连接超时" (Or.inl rfl)
  exact ⟨h.1, h.2.1⟩

/-- C6: the round recorded for every produced turn obeys
`round = floor((generationOrder - 1) / participantCount) + 1`, both as the
generation step computes it before assigning the order (graph.py lines
451-455, 569) and as the consumer-side worker recomputes it from the message
count (debates.py line 136). -/
theorem claim6_round_relation (re : Bool) (agents : List String) (R : Nat)
    (outcomes : Nat → GenOutcome) (fetches : Nat → FetchOutcome)
    (hP1 : 3 ≤ agents.length) (hP2 : agents.length ≤ 6)
    (k : Nat) (hk1 : 1 ≤ k) (hk2 : k ≤ R * agents.length) :
    (((runDebate re agents R outcomes fetches).transcript.getD (k - 1)
        defaultTurn).roundNumber
      = (((runDebate re agents R outcomes fetches).transcript.getD (k - 1)
        defaultTurn).generationOrder - 1) / agents.length + 1) ∧
    (((runDebate re agents R outcomes fetches).transcript.getD (k - 1)
        defaultTurn).roundNumber = (k - 1) / agents.length + 1) ∧
    (background_worker_round k agents.length
      = ((runDebate re agents R outcomes fetches).transcript.getD (k - 1)
        defaultTurn).roundNumber) := by
  have hP : agents.length ≠ 0 := by omega
  have h := runDebate_spec re agents R outcomes fetches hP
  have ht := h.2.2 (k - 1) (by omega)
  refine ⟨?_, ht.2.2.1, ?_⟩
  · rw [ht.2.2.1, ht.1, Nat.add_sub_cancel]
  · rw [ht.2.2.1]; rfl

/-- Witness for C6: turn 4 of the concrete 3-participant session is recorded
with round `floor((4-1)/3)+1 = 2` on both sides. -/
theorem claim6_witness :
    (((runDebate true ["environmentalist", "economist", "policy_maker"] 2
        (fun _ => GenOutcome.success "观点") (fun _ => FetchOutcome.ok "资料")).transcript.getD
        (4 - 1) defaultTurn).roundNumber
      = (4 - 1) / (["environmentalist", "economist", "policy_maker"] : List String).length + 1) ∧
    (background_worker_round 4 (["environmentalist", "economist", "policy_maker"] : List String).length
      = ((runDebate true ["environmentalist", "economist", "policy_maker"] 2
        (fun _ => GenOutcome.success "观点") (fun _ => FetchOutcome.ok "资料")).transcript.getD
        (4 - 1) defaultTurn).roundNumber) := by
  have h := claim6_round_relation true ["environmentalist", "economist", "policy_maker"] 2
    (fun _ => GenOutcome.success "观点") (fun _ => FetchOutcome.ok "资料")
    (by decide) (by decide) 4 (by decide) (by decide)
  exact ⟨h.2.1, h.2.2⟩

/-- C9: every call to the per-turn generation step returns an update with
exactly one new message and a message counter advanced by exactly one, on the
success path, the model-not-initialised path and the exception-recovery path
alike. -/
theorem claim9_one_message_per_update (re : Bool) (agents : List String)
    (st : GraphState) (key : String) (o : GenOutcome) (f : FetchOutcome) :
    (_generate_agent_response re agents st key o f).update.messages.length = 1 ∧
    (_generate_agent_response re agents st key o f).update.total_messages
      = st.totalMessages + 1 := by
  cases o <;> exact ⟨rfl, rfl⟩

/-- C3: for every run of the consumer loop — any interleaving of producer
enqueues (in any arrival order) and playback iterations — the displayed list
carries generation orders exactly 1, 2, 3, ..., so any two displayed positions
i < j have strictly increasing generation orders, matching the round-robin
scheduling order and independent of production race timing. -/
theorem claim3_consumer_order (ops : List ConsumerOp) :
    (∀ i, i < (consumerRun ops ⟨[], []⟩).displayed.length →
      ((consumerRun ops ⟨[], []⟩).displayed.getD i defaultItem).generation_order
        = i + 1) ∧
    (∀ i j, i < j → j < (consumerRun ops ⟨[], []⟩).displayed.length →
      ((consumerRun ops ⟨[], []⟩).displayed.getD i defaultItem).generation_order <
      ((consumerRun ops ⟨[], []⟩).displayed.getD j defaultItem).generation_order) := by
  have h := consumerRun_preserves ops ⟨[], []⟩ (by intro i hi; simp at hi)
  refine ⟨h, fun i j hij hj => ?_⟩
  rw [h i (by omega), h j hj]
  omega

/-- Witness for C3: the producer enqueues turn 2 before turn 1; two playback
iterations still display them as 1 then 2. -/
theorem claim3_witness :
    ((consumerRun
      [ConsumerOp.enqueue ⟨"economist", "乙", 1, 2⟩,
       ConsumerOp.enqueue ⟨"environmentalist", "甲", 1, 1⟩,
       ConsumerOp.consume, ConsumerOp.consume] ⟨[], []⟩).displayed.getD 0
        defaultItem).generation_order <
    ((consumerRun
      [ConsumerOp.enqueue ⟨"economist", "乙", 1, 2⟩,
       ConsumerOp.enqueue ⟨"environmentalist", "甲", 1, 1⟩,
       ConsumerOp.consume, ConsumerOp.consume] ⟨[], []⟩).displayed.getD 1
        defaultItem).generation_order :=
  (claim3_consumer_order
    [ConsumerOp.enqueue ⟨"economist", "乙", 1, 2⟩,
     ConsumerOp.enqueue ⟨"environmentalist", "甲", 1, 1⟩,
     ConsumerOp.consume, ConsumerOp.consume]).2 0 1 (by decide) (by decide)

/-- C8: constructing a debate session fails with a configuration error when
the participant count is outside [3, 6] — both in `create_multi_agent_graph`
and in the driver's validation, which runs before any turn is generated — and
construction from 3 to 6 known role ids succeeds. -/
theorem claim8_role_count_validation (agents : List String) (R : Nat)
    (re : Bool) (outcomes : Nat → GenOutcome) (fetches : Nat → FetchOutcome) :
    (agents.length < 3 ∨ 6 < agents.length →
      (∃ e, create_multi_agent_graph agents = Except.error e) ∧
      (∃ e, generate_response_session agents R re outcomes fetches
        = Except.error e)) ∧
    (3 ≤ agents.length → agents.length ≤ 6 →
      (∀ k ∈ agents, (AVAILABLE_ROLES.find? (fun p => p.1 == k)).isSome) →
      create_multi_agent_graph agents = Except.ok agents ∧
      generate_response_session agents R re outcomes fetches
        = Except.ok (runDebate re agents R outcomes fetches).transcript) := by
  constructor
  · intro hbad
    constructor
    · unfold create_multi_agent_graph
      rcases hbad with hb | hb
      · rw [if_pos hb]; exact ⟨_, rfl⟩
      · rw [if_neg (by omega), if_pos hb]; exact ⟨_, rfl⟩
    · unfold generate_response_session
      by_cases he : agents.isEmpty
      · rw [if_pos he]; exact ⟨_, rfl⟩
      · rw [if_neg he]
        rcases hbad with hb | hb
        · rw [if_pos hb]; exact ⟨_, rfl⟩
        · rw [if_neg (by omega), if_pos hb]; exact ⟨_, rfl⟩
  · intro h3 h6 hknown
    have hok : create_multi_agent_graph agents = Except.ok agents := by
      unfold create_multi_agent_graph
      rw [if_neg (by omega), if_neg (by omega)]
      have hfind : agents.find?
          (fun k => (AVAILABLE_ROLES.find? (fun p => p.1 == k)).isNone) = none := by
        rw [List.find?_eq_none]
        intro x hx
        have := hknown x hx
        simp only [Option.isNone]
        cases hf : AVAILABLE_ROLES.find? (fun p => p.1 == x) with
        | none => rw [hf] at this; simp at this
        | some v => simp
      rw [hfind]
    refine ⟨hok, ?_⟩
    unfold generate_response_session
    have hne : ¬ (agents.isEmpty = true) := by
      cases agents with
      | nil => simp at h3
      | cons a as => simp
    rw [if_neg hne, if_neg (by omega), if_neg (by omega), hok]

/-- Witness for C8: one role is rejected; three known roles are accepted. -/
theorem claim8_witness :
    (∃ e, create_multi_agent_graph ["environmentalist"] = Except.error e) ∧
    create_multi_agent_graph ["environmentalist", "economist", "policy_maker"]
      = Except.ok ["environmentalist", "economist", "policy_maker"] := by
  constructor
  · exact ((claim8_role_count_validation ["environmentalist"] 2 true
      (fun _ => GenOutcome.modelNone) (fun _ => FetchOutcome.ok "")).1
      (Or.inl (by decide))).1
  · exact ((claim8_role_count_validation
      ["environmentalist", "economist", "policy_maker"] 2 true
      (fun _ => GenOutcome.modelNone) (fun _ => FetchOutcome.ok "")).2
      (by decide) (by decide) (by decide)).1

/-- C7: a cached retrieval entry whose age exceeds its ttl is treated as
absent — the access removes the entry and the surrounding
`get_rag_context_for_agent` call (without `force_refresh`) then invokes the
external search — while a non-expired entry whose reference count matches the
requested `max_sources` is returned as-is with no external call.  The
`RAGCache` functions take no per-session fetched flag, so ttl expiry is
independent of it, and a later session on the same (role, topic) can
short-circuit the external call this way. -/
theorem claim7_ttl_expiry (cache : RmCache) (role topic : String)
    (maxSources now : Nat) (p : (String × String) × RmCacheEntry)
    (search : SearchOutcome)
    (hfind : cache.find? (fun x => x.1 == (role, topic)) = some p)
    (hrole : role ≠ "") (htopic : topic ≠ "") (hmax : maxSources ≠ 0) :
    (p.2.timestamp + AGENT_CACHE_TTL_SECONDS < now →
      (get_agent_cached_context cache role topic now).1 = none ∧
      (get_agent_cached_context cache role topic now).2.find?
        (fun x => x.1 == (role, topic)) = none ∧
      (rm_get_rag_context_for_agent role topic maxSources false cache now
        search).2.2 = true) ∧
    (¬ (p.2.timestamp + AGENT_CACHE_TTL_SECONDS < now) →
      strCount p.2.context "参考资料" = maxSources →
      rm_get_rag_context_for_agent role topic maxSources false cache now search
        = (p.2.context, cache, false)) := by
  have hguard : ¬ ((role == "" || topic == "") = true) := by
    simp [hrole, htopic]
  constructor
  · intro hexp
    have hgac : get_agent_cached_context cache role topic now
        = (none, cache.filter (fun x => !(x.1 == (role, topic)))) := by
      unfold get_agent_cached_context
      rw [hfind]
      exact if_pos hexp
    refine ⟨by rw [hgac], ?_, ?_⟩
    · rw [hgac]
      exact find?_filter_not _ _
    · unfold rm_get_rag_context_for_agent
      rw [if_neg hguard, if_neg hmax, hgac]
      rcases search with e | mc
      · rfl
      · rcases mc with _ | c <;> rfl
  · intro hvalid hcount
    have hgac : get_agent_cached_context cache role topic now
        = (some p.2.context, cache) := by
      unfold get_agent_cached_context
      rw [hfind]
      exact if_neg hvalid
    unfold rm_get_rag_context_for_agent
    rw [if_neg hguard, if_neg hmax, hgac]
    simp [hcount]

/-- Witness for C7: an entry written at second 0 with ttl 6h is expired at
second 21601 (removed and re-fetched) but served without an external call at
second 100 when it holds the two requested references. -/
theorem claim7_witness :
    ((get_agent_cached_context
        [(("tech_expert", "人工智能"), ⟨0, "参考资料参考资料"⟩)]
        "tech_expert" "人工智能" 21601).1 = none ∧
      (get_agent_cached_context
        [(("tech_expert", "人工智能"), ⟨0, "参考资料参考资料"⟩)]
        "tech_expert" "人工智能" 21601).2.find?
          (fun x => x.1 == ("tech_expert", "人工智能")) = none ∧
      (rm_get_rag_context_for_agent "tech_expert" "人工智能" 2 false
        [(("tech_expert", "人工智能"), ⟨0, "参考资料参考资料"⟩)] 21601
        (SearchOutcome.results none)).2.2 = true) ∧
    (rm_get_rag_context_for_agent "tech_expert" "人工智能" 2 false
      [(("tech_expert", "人工智能"), ⟨0, "参考资料参考资料"⟩)] 100
      (SearchOutcome.results none)
      = ("参考资料参考资料",
         [(("tech_expert", "人工智能"), ⟨0, "参考资料参考资料"⟩)], false)) := by
  constructor
  · exact (claim7_ttl_expiry
      [(("tech_expert", "人工智能"), ⟨0, "参考资料参考资料"⟩)]
      "tech_expert" "人工智能" 2 21601
      (("tech_expert", "人工智能"), ⟨0, "参考资料参考资料"⟩)
      (SearchOutcome.results none) (by decide) (by decide) (by decide)
      (by decide)).1 (by decide)
  · exact (claim7_ttl_expiry
      [(("tech_expert", "人工智能"), ⟨0, "参考资料参考资料"⟩)]
      "tech_expert" "人工智能" 2 100
      (("tech_expert", "人工智能"), ⟨0, "参考资料参考资料"⟩)
      (SearchOutcome.results none) (by decide) (by decide) (by decide)
      (by decide)).2 (by decide) (by decide)

/-- C10: `text_to_speech` returns `None` without calling the API for an
empty or whitespace-only text; otherwise the payload sent to the
speech-synthesis API is everything after the first `:` of the input (the
whole input when there is no colon) with surrounding whitespace stripped and
truncated to at most 1000 characters. -/
theorem claim10_tts_clean_and_guard (text : List Char) :
    ((pyStrip text).isEmpty = true → text_to_speech true text = none) ∧
    (∀ payload, text_to_speech true text = some payload →
      payload.length ≤ 1000 ∧
      (text.contains ':' = true →
        ∃ u v, dropThroughFirstColon text = u ++ payload ++ v) ∧
      (text.contains ':' = false → ∃ u v, text = u ++ payload ++ v)) := by
  constructor
  · intro hempty
    simp [text_to_speech, hempty]
  · intro payload hp
    unfold text_to_speech at hp
    by_cases hguard : (text.isEmpty || (pyStrip text).isEmpty) = true
    · simp [hguard] at hp
    · rw [if_neg (by simp)] at hp
      rw [if_neg hguard] at hp
      have hpayload : payload = clean_text text := by
        exact (Option.some.injEq _ _).mp hp.symm
      subst hpayload
      simp only [clean_text]
      set text1 := if text.contains ':' then pyStrip (dropThroughFirstColon text) else text
        with htext1
      have htext2 : (if 1000 < text1.length then text1.take 1000 else text1)
          = text1.take 1000 := by
        by_cases hlong : 1000 < text1.length
        · rw [if_pos hlong]
        · rw [if_neg hlong, List.take_of_length_le (by omega)]
      rw [htext2]
      have hlen : (pyStrip (text1.take 1000)).length ≤ 1000 := by
        calc (pyStrip (text1.take 1000)).length ≤ (text1.take 1000).length :=
              length_pyStrip_le _
          _ ≤ 1000 := by rw [List.length_take]; omega
      have hinside : ∃ u v, text1 = u ++ pyStrip (text1.take 1000) ++ v := by
        obtain ⟨u1, v1, h1⟩ := pyStrip_between (text1.take 1000)
        refine ⟨u1, v1 ++ text1.drop 1000, ?_⟩
        conv_lhs => rw [← List.take_append_drop 1000 text1, h1]
        simp [List.append_assoc]
      refine ⟨hlen, ?_, ?_⟩
      · intro hc
        rw [htext1, if_pos hc] at hinside ⊢
        obtain ⟨u1, v1, h1⟩ := hinside
        obtain ⟨u2, v2, h2⟩ := pyStrip_between (dropThroughFirstColon text)
        refine ⟨u2 ++ u1, v1 ++ v2, ?_⟩
        conv_lhs => rw [h2, h1]
        simp [List.append_assoc]
      · intro hc
        rw [htext1, if_neg (by rw [hc]; exact Bool.false_ne_true)] at hinside ⊢
        exact hinside

/-- Witness for C10: the role-tagged text `"环保主义者: 你好"` is sent to the
API as `"你好"`, the post-colon remainder stripped, and within 1000 chars. -/
theorem claim10_witness :
    ("你好".data.length ≤ 1000) ∧
    (∃ u v, dropThroughFirstColon "环保主义者: 你好".data
      = u ++ "你好".data ++ v) := by
  have h := (claim10_tts_clean_and_guard "环保主义者: 你好".data).2
    "你好".data (by decide)
  exact ⟨h.1, h.2.1 (by decide)⟩

/-- C4 (code bug): in a concrete all-success session
(roles `[environmentalist, economist, policy_maker]`, 2 rounds, the external
fetch answering `"参考资料 甲"` for every call), the first speaker never
triggers the external retrieval pipeline — its round-1 turn is generated
while the stored `current_round` field is still `0`, so
`get_rag_context_for_agent` skips the round-1 fetch branch — and in every
round it is handed the generic fallback string instead of a cached round-1
payload, while the other two roles fetch exactly once (in round 1) and reuse
the byte-identical cached string in round 2.  Moreover, in a second session
whose generation fails on turns 2-4, the stored `current_round` stays `1` and
the first speaker's round-2 turn triggers a fetch outside round 1.  This
contradicts the function's own docstring (round 1: fetch and cache; later
rounds: reuse the cache) and the claim. -/
theorem claim4_first_speaker_never_fetches :
    ((runDebate true ["environmentalist", "economist", "policy_maker"] 2
        (fun _ => GenOutcome.success "观点")
        (fun _ => FetchOutcome.ok "参考资料 甲")).transcript.filter
        (fun t => t.agentKey == "environmentalist" && t.fetched)).length = 0 ∧
    ((runDebate true ["environmentalist", "economist", "policy_maker"] 2
        (fun _ => GenOutcome.success "观点")
        (fun _ => FetchOutcome.ok "参考资料 甲")).transcript.filter
        (fun t => t.agentKey == "economist" && t.fetched)).length = 1 ∧
    ((runDebate true ["environmentalist", "economist", "policy_maker"] 2
        (fun _ => GenOutcome.success "观点")
        (fun _ => FetchOutcome.ok "参考资料 甲")).transcript.getD 3
        defaultTurn).agentKey = "environmentalist" ∧
    ((runDebate true ["environmentalist", "economist", "policy_maker"] 2
        (fun _ => GenOutcome.success "观点")
        (fun _ => FetchOutcome.ok "参考资料 甲")).transcript.getD 3
        defaultTurn).roundNumber = 2 ∧
    ((runDebate true ["environmentalist", "economist", "policy_maker"] 2
        (fun _ => GenOutcome.success "观点")
        (fun _ => FetchOutcome.ok "参考资料 甲")).transcript.getD 3
        defaultTurn).ragContext = some RAG_FALLBACK ∧
    ((runDebate true ["environmentalist", "economist", "policy_maker"] 2
        (fun _ => GenOutcome.success "观点")
        (fun _ => FetchOutcome.ok "参考资料 甲")).transcript.getD 4
        defaultTurn).ragContext = some "参考资料 甲" ∧
    ((runDebate true ["environmentalist", "economist", "policy_maker"] 2
        (fun _ => GenOutcome.success "观点")
        (fun _ => FetchOutcome.ok "参考资料 甲")).transcript.getD 4
        defaultTurn).fetched = false ∧
    ((runDebate true ["environmentalist", "economist", "policy_maker"] 2
        (fun j => if j = 0 then GenOutcome.success "观点"
                  else if j ≤ 3 then GenOutcome.err "超时"
                  else GenOutcome.success "观点")
        (fun _ => FetchOutcome.ok "参考资料 甲")).transcript.getD 3
        defaultTurn).fetched = true ∧
    ((runDebate true ["environmentalist", "economist", "policy_maker"] 2
        (fun j => if j = 0 then GenOutcome.success "观点"
                  else if j ≤ 3 then GenOutcome.err "超时"
                  else GenOutcome.success "观点")
        (fun _ => FetchOutcome.ok "参考资料 甲")).transcript.getD 3
        defaultTurn).roundNumber = 2 := by
  refine ⟨?_, ?_, ?_, ?_, ?_, ?_, ?_, ?_, ?_⟩ <;> decide

end AiDebate
